import Mathlib

/-!
# Calculator microservice (`src/app.js`): validation, guarded execution, responses

A shallow embedding of the Express application in `src/app.js`.

* Host values.  JavaScript numbers are IEEE-754 binary64 values; they are modelled
  exactly by `JSNumber` (NaN, the two infinities, and signed dyadic rationals in a
  canonical form), with round-to-nearest-even arithmetic.  The host conversions the
  validators rely on, `isNaN` (which applies `Number(...)`) and `parseFloat`, follow the
  ECMAScript grammar for `StringNumericLiteral` and `StrDecimalLiteral`.
* Requests.  `req.query` is a mapping from parameter names to query values (strings,
  or the arrays and objects the query parser can build).
* Effects.  `res.status(c).json(b)` is modelled by the value `Response`; `next()` by the
  constructor `Step.next` carrying the operands that the middleware attached to `req`.
  The clock (`Date.now()`, `new Date().toISOString()`) is an explicit argument.
  Calls to the logger have no influence on the response and are left out.
* The endpoints `/power` and `/health` touch neither the validators' outcome nor the
  breaker and are not embedded.
-/

namespace Calc

/-! ## Host numbers -/

/-- Number of binary digits of `n`, by repeated halving (`fuel` bounds the halvings). -/
def bitLenAux : Nat → Nat → Nat
  | 0, _ => 0
  | fuel + 1, n => if n = 0 then 0 else bitLenAux fuel (n / 2) + 1

/-- Bit length: `bitLen 0 = 0`, `bitLen 5 = 3`. -/
def bitLen (n : Nat) : Nat := bitLenAux n n

/-- Number of trailing zero bits of a positive number. -/
def trailingZerosAux : Nat → Nat → Nat
  | 0, _ => 0
  | fuel + 1, n => if n % 2 = 1 then 0 else trailingZerosAux fuel (n / 2) + 1

/-- Trailing zero bits; `0` for `0`. -/
def trailingZeros (n : Nat) : Nat := if n = 0 then 0 else trailingZerosAux n n

/-- A JavaScript number (IEEE-754 binary64).  `fin neg m e` is `(-1)^neg * m * 2^e`.
Values produced by the operations below are canonical: `m` is odd, or `m = 0` and
`e = 0` (the two zeros are `fin false 0 0` and `fin true 0 0`). -/
inductive JSNumber where
  | nan
  | inf (neg : Bool)
  | fin (neg : Bool) (m : Nat) (e : Int)
  deriving DecidableEq

namespace JSNumber

/-- Canonical form of `(-1)^neg * m * 2^e`. -/
def normalize (neg : Bool) (m : Nat) (e : Int) : JSNumber :=
  if m = 0 then fin neg 0 0
  else fin neg (m >>> trailingZeros m) (e + (trailingZeros m : Int))

/-- The binary64 value nearest to `(-1)^neg * x`, ties to even, where
`m * 2^e ≤ x < (m+1) * 2^e` and `sticky` tells whether `x > m * 2^e`.
When `sticky` is set, `m` must carry at least 55 bits. -/
def roundSticky (neg : Bool) (m : Nat) (e : Int) (sticky : Bool) : JSNumber :=
  let e' : Int := max (e + (bitLen m : Int) - 53) (-1074)
  if e' ≤ e then
    if (bitLen m : Int) + e > 1024 then inf neg else normalize neg m e
  else
    let sh := (e' - e).toNat
    let q := m >>> sh
    let r := m % (1 <<< sh)
    let half := 1 <<< (sh - 1)
    let up := decide (half < r) || (decide (r = half) && (sticky || q % 2 == 1))
    let q' := if up then q + 1 else q
    if (bitLen q' : Int) + e' > 1024 then inf neg else normalize neg q' e'

/-- The number denoted by a natural number (`5`, `8`, ...). -/
def ofNat (n : Nat) : JSNumber := roundSticky false n 0 false

/-- Host `isNaN` on a number. -/
def isNaN : JSNumber → Bool
  | nan => true
  | _ => false

/-- Whether the number is neither NaN nor an infinity. -/
def isFinite : JSNumber → Bool
  | fin _ _ _ => true
  | _ => false

/-- Integer `(-1)^neg * m`. -/
def signed (neg : Bool) (m : Nat) : Int := if neg then -(m : Int) else (m : Int)

/-- Host `a + b`. -/
def add : JSNumber → JSNumber → JSNumber
  | nan, _ => nan
  | _, nan => nan
  | inf a, inf b => if a = b then inf a else nan
  | inf a, fin _ _ _ => inf a
  | fin _ _ _, inf b => inf b
  | fin s1 m1 e1, fin s2 m2 e2 =>
    let e := min e1 e2
    let s := signed s1 (m1 <<< (e1 - e).toNat) + signed s2 (m2 <<< (e2 - e).toNat)
    if s = 0 then fin (s1 && s2) 0 0 else roundSticky (decide (s < 0)) s.natAbs e false

/-- Host unary minus. -/
def negate : JSNumber → JSNumber
  | nan => nan
  | inf s => inf (!s)
  | fin s m e => fin (!s) m e

/-- Host `a - b`. -/
def sub (a b : JSNumber) : JSNumber := add a (negate b)

/-- Host `a * b`. -/
def mul : JSNumber → JSNumber → JSNumber
  | nan, _ => nan
  | _, nan => nan
  | inf a, inf b => inf (xor a b)
  | inf a, fin s m _ => if m = 0 then nan else inf (xor a s)
  | fin s m _, inf b => if m = 0 then nan else inf (xor s b)
  | fin s1 m1 e1, fin s2 m2 e2 =>
    if m1 * m2 = 0 then fin (xor s1 s2) 0 0
    else roundSticky (xor s1 s2) (m1 * m2) (e1 + e2) false

/-- Host `a / b`. -/
def div : JSNumber → JSNumber → JSNumber
  | nan, _ => nan
  | _, nan => nan
  | inf _, inf _ => nan
  | inf a, fin s _ _ => inf (xor a s)
  | fin s _ _, inf b => fin (xor s b) 0 0
  | fin s1 m1 e1, fin s2 m2 e2 =>
    if m2 = 0 then (if m1 = 0 then nan else inf (xor s1 s2))
    else if m1 = 0 then fin (xor s1 s2) 0 0
    else
      let k := 64 + bitLen m2
      let n := m1 <<< k
      roundSticky (xor s1 s2) (n / m2) (e1 - e2 - (k : Int)) (n % m2 != 0)

/-- Host `a % b` (remainder with the sign of the dividend). -/
def mod : JSNumber → JSNumber → JSNumber
  | nan, _ => nan
  | _, nan => nan
  | inf _, _ => nan
  | fin s m e, inf _ => fin s m e
  | fin s1 m1 e1, fin _ m2 e2 =>
    if m2 = 0 then nan
    else if m1 = 0 then fin s1 0 0
    else
      let e := min e1 e2
      let r := (m1 <<< (e1 - e).toNat) % (m2 <<< (e2 - e).toNat)
      if r = 0 then fin s1 0 0 else roundSticky s1 r e false

/-- Integer square root by binary search on the bits, from bit `b` downwards. -/
def isqrtLoop (n : Nat) : Nat → Nat → Nat
  | 0, r => if (r + 1) * (r + 1) ≤ n then r + 1 else r
  | b + 1, r =>
    let c := r + (1 <<< (b + 1))
    isqrtLoop n b (if c * c ≤ n then c else r)

/-- Integer square root: the largest `r` with `r * r ≤ n`. -/
def isqrt (n : Nat) : Nat := isqrtLoop n (bitLen n / 2 + 1) 0

/-- Host `Math.sqrt`. -/
def sqrt : JSNumber → JSNumber
  | nan => nan
  | inf s => if s then nan else inf false
  | fin s m e =>
    if m = 0 then fin s 0 0
    else if s then nan
    else
      let k : Nat := if (e - 128) % 2 = 0 then 128 else 129
      let n := m <<< k
      let r := isqrt n
      roundSticky false r ((e - (k : Int)) / 2) (r * r != n)

/-- Host `a < b`. -/
def lt : JSNumber → JSNumber → Bool
  | nan, _ => false
  | _, nan => false
  | inf a, inf b => a && !b
  | inf a, fin _ _ _ => a
  | fin _ _ _, inf b => !b
  | fin s1 m1 e1, fin s2 m2 e2 =>
    let e := min e1 e2
    decide (signed s1 (m1 <<< (e1 - e).toNat) < signed s2 (m2 <<< (e2 - e).toNat))

/-- Host `a === b` on numbers. -/
def strictEq : JSNumber → JSNumber → Bool
  | nan, _ => false
  | _, nan => false
  | inf a, inf b => a == b
  | inf _, fin _ _ _ => false
  | fin _ _ _, inf _ => false
  | fin s1 m1 e1, fin s2 m2 e2 =>
    let e := min e1 e2
    decide (signed s1 (m1 <<< (e1 - e).toNat) = signed s2 (m2 <<< (e2 - e).toNat))

/-- Host `a >= b`. -/
def ge (a b : JSNumber) : Bool := lt b a || strictEq a b

/-- The number zero (`+0`). -/
def zero : JSNumber := fin false 0 0

end JSNumber

/-! ## Host conversions from text: `Number(...)`, `isNaN(...)`, `parseFloat(...)` -/

/-- ECMAScript `StrWhiteSpaceChar`: white space and line terminators. -/
def isWhiteSpace (c : Char) : Bool :=
  let n := c.toNat
  n == 9 || n == 10 || n == 11 || n == 12 || n == 13 || n == 32 || n == 160 ||
  n == 0x1680 || (0x2000 ≤ n && n ≤ 0x200A) || n == 0x2028 || n == 0x2029 ||
  n == 0x202F || n == 0x205F || n == 0x3000 || n == 0xFEFF

/-- Strings the host trims to nothing: only white space (or empty). -/
def isBlank (s : String) : Bool := s.toList.all isWhiteSpace

/-- Decimal digit test. -/
def isDigit (c : Char) : Bool := 48 ≤ c.toNat && c.toNat ≤ 57

/-- Value of a digit in radix up to 16; `none` for other characters. -/
def digitValue (c : Char) : Option Nat :=
  let n := c.toNat
  if 48 ≤ n && n ≤ 57 then some (n - 48)
  else if 97 ≤ n && n ≤ 102 then some (n - 87)
  else if 65 ≤ n && n ≤ 70 then some (n - 55)
  else none

/-- Whether `c` is a digit of the given radix. -/
def isRadixDigit (radix : Nat) (c : Char) : Bool :=
  match digitValue c with
  | some d => decide (d < radix)
  | none => false

/-- Mathematical value of a digit string in the given radix. -/
def digitsValue (radix : Nat) (ds : List Char) : Nat :=
  ds.foldl (fun acc c => acc * radix + (digitValue c).getD 0) 0

/-- The binary64 value of `(-1)^neg * m * 10^e`. -/
def decimalValue (neg : Bool) (m : Nat) (e : Int) : JSNumber :=
  if m = 0 then JSNumber.fin neg 0 0
  else if 0 ≤ e then JSNumber.roundSticky neg (m * 10 ^ e.toNat) 0 false
  else
    let d := 10 ^ (-e).toNat
    let k := 64 + bitLen d
    let n := m <<< k
    JSNumber.roundSticky neg (n / d) (-(k : Int)) (n % d != 0)

/-- Optional `ExponentPart` at the head of `cs`: the exponent and the remaining text.
When no well-formed exponent part is present, the exponent is `0` and nothing is consumed. -/
def scanExponent (cs : List Char) : Int × List Char :=
  match cs with
  | c :: rest =>
    if c = 'e' || c = 'E' then
      match rest with
      | '+' :: rest' =>
        let ds := rest'.span isDigit
        if ds.1.isEmpty then (0, cs) else ((digitsValue 10 ds.1 : Int), ds.2)
      | '-' :: rest' =>
        let ds := rest'.span isDigit
        if ds.1.isEmpty then (0, cs) else (-(digitsValue 10 ds.1 : Int), ds.2)
      | _ =>
        let ds := rest.span isDigit
        if ds.1.isEmpty then (0, cs) else ((digitsValue 10 ds.1 : Int), ds.2)
    else (0, cs)
  | [] => (0, cs)

/-- Longest prefix of `cs` that is a `StrUnsignedDecimalLiteral`, with the given sign:
its value and the remaining text; `none` when no prefix qualifies. -/
def scanUnsigned (neg : Bool) (cs : List Char) : Option (JSNumber × List Char) :=
  if "Infinity".toList.isPrefixOf cs then some (JSNumber.inf neg, cs.drop 8)
  else
    let ip := cs.span isDigit
    match ip.2 with
    | '.' :: afterDot =>
      let fp := afterDot.span isDigit
      if ip.1.isEmpty && fp.1.isEmpty then none
      else
        let ex := scanExponent fp.2
        some (decimalValue neg (digitsValue 10 (ip.1 ++ fp.1)) (ex.1 - (fp.1.length : Int)), ex.2)
    | _ =>
      if ip.1.isEmpty then none
      else
        let ex := scanExponent ip.2
        some (decimalValue neg (digitsValue 10 ip.1) ex.1, ex.2)

/-- Longest prefix of `cs` that is a `StrDecimalLiteral` (optional sign, then an unsigned
decimal literal): its value and the remaining text. -/
def scanDecimal (cs : List Char) : Option (JSNumber × List Char) :=
  match cs with
  | '+' :: rest => scanUnsigned false rest
  | '-' :: rest => scanUnsigned true rest
  | _ => scanUnsigned false cs

/-- Radix announced by the second character of a `NonDecimalIntegerLiteral`. -/
def radixOf (c : Char) : Option Nat :=
  if c = 'x' || c = 'X' then some 16
  else if c = 'o' || c = 'O' then some 8
  else if c = 'b' || c = 'B' then some 2
  else none

/-- Value of `cs` read as a `NonDecimalIntegerLiteral` (`0x..`, `0o..`, `0b..`) followed
only by white space; NaN otherwise. -/
def scanNonDecimal (cs : List Char) : JSNumber :=
  match cs with
  | '0' :: c :: rest =>
    match radixOf c with
    | some radix =>
      let ds := rest.span (isRadixDigit radix)
      if !ds.1.isEmpty && ds.2.all isWhiteSpace then
        JSNumber.roundSticky false (digitsValue radix ds.1) 0 false
      else JSNumber.nan
    | none => JSNumber.nan
  | _ => JSNumber.nan

/-- Host `Number(s)` on a string (`StringToNumber`): the text must be a
`StringNumericLiteral`, that is white space only (value `+0`), or a decimal or non-decimal
literal surrounded by optional white space; anything else is NaN. -/
def stringToNumber (s : String) : JSNumber :=
  let t := s.toList.dropWhile isWhiteSpace
  if t.isEmpty then JSNumber.zero
  else
    match scanDecimal t with
    | some (v, rest) => if rest.all isWhiteSpace then v else scanNonDecimal t
    | none => scanNonDecimal t

/-- Host `parseFloat(s)` on a string: skip leading white space, take the longest prefix
that is a `StrDecimalLiteral`; NaN when there is none. -/
def parseFloatString (s : String) : JSNumber :=
  match scanDecimal (s.toList.dropWhile isWhiteSpace) with
  | some (v, _) => v
  | none => JSNumber.nan

/-! ## Requests and responses -/

/-- A value of `req.query`: a string, or an array or object built by the query parser
(`?num1[]=5`, `?num1=5&num1=6`, `?num1[a]=5`). -/
inductive QVal where
  | str (s : String)
  | arr (items : List QVal)
  | obj (fields : List (String × QVal))

mutual
/-- Host `ToString` on a query value: arrays join their elements with commas, plain
objects print as `[object Object]`. -/
def QVal.toStringJS : QVal → String
  | .str s => s
  | .arr items => QVal.joinJS items
  | .obj _ => "[object Object]"
/-- Host `Array.prototype.join(",")`. -/
def QVal.joinJS : List QVal → String
  | [] => ""
  | [v] => QVal.toStringJS v
  | v :: w :: rest => QVal.toStringJS v ++ "," ++ QVal.joinJS (w :: rest)
end

/-- Host `isNaN(v)`: `Number(v)` is NaN.  A non-string value is first converted to text. -/
def jsIsNaN (v : QVal) : Bool := (stringToNumber v.toStringJS).isNaN

/-- Host `parseFloat(v)`: the argument is first converted to text. -/
def parseFloat (v : QVal) : JSNumber := parseFloatString v.toStringJS

/-- The mapping `req.query`; `none` is `undefined`. -/
abbrev Query := String → Option QVal

/-- Query with the listed parameters. -/
def Query.ofList (ps : List (String × QVal)) : Query := fun k => ps.lookup k

/-- The object handed to `res.json`. -/
inductive Json where
  | num (n : JSNumber)
  | str (s : String)
  | raw (v : QVal)
  | obj (fields : List (String × Json))

/-- Whether a JSON object carries the named field. -/
def Json.hasField (name : String) : Json → Bool
  | .obj fields => fields.any (fun p => p.1 == name)
  | _ => false

/-- Names of the fields of a JSON object, in order. -/
def Json.fieldNames : Json → List String
  | .obj fields => fields.map (fun p => p.1)
  | _ => []

/-- What was sent: `res.status(status).json(body)`; `res.json(body)` alone sends 200. -/
structure Response where
  status : Nat
  body : Json

/-- Outcome of a middleware: it answered, or it called `next()` with the request as
it left it. -/
inductive Step (α : Type) where
  | respond (r : Response)
  | next (req : α)

/-- Operands attached by `validateNumbers` (`req.num1`, `req.num2`). -/
structure NumReq where
  num1 : JSNumber
  num2 : JSNumber

/-- Operand attached by `validateSingleNumber` (`req.num`). -/
structure SingleReq where
  num : JSNumber

/-- Readings of the clock during one request: `Date.now()` and
`new Date().toISOString()`. -/
structure Clock where
  nowMs : Nat
  iso : String

/-! ## Validators (`src/app.js` lines 32-78) -/

/-- Body sent by `validateNumbers` when a parameter is undefined. -/
def missingNumbersBody : Json :=
  .obj [("error", .str "Both num1 and num2 are required"),
        ("suggestion", .str "Example: /add?num1=5&num2=3")]

/-- Body sent by `validateNumbers` when a parameter is not a number. -/
def invalidNumbersBody (num1 num2 : QVal) : Json :=
  .obj [("error", .str "Both num1 and num2 must be valid numbers"),
        ("received", .obj [("num1", .raw num1), ("num2", .raw num2)])]

/-- Middleware `validateNumbers`. -/
def validateNumbers (query : Query) : Step NumReq :=
  match query "num1", query "num2" with
  | some num1, some num2 =>
    if jsIsNaN num1 || jsIsNaN num2 then
      .respond ⟨400, invalidNumbersBody num1 num2⟩
    else
      .next ⟨parseFloat num1, parseFloat num2⟩
  | _, _ => .respond ⟨400, missingNumbersBody⟩

/-- Body sent by `validateSingleNumber` when `num` is undefined. -/
def missingNumberBody : Json :=
  .obj [("error", .str "num parameter is required"), ("example", .str "/sqrt?num=25")]

/-- Body sent by `validateSingleNumber` when `num` is not a number. -/
def invalidNumberBody (num : QVal) : Json :=
  .obj [("error", .str "num must be a valid number"), ("received", .raw num)]

/-- Middleware `validateSingleNumber`. -/
def validateSingleNumber (query : Query) : Step SingleReq :=
  match query "num" with
  | some num =>
    if jsIsNaN num then .respond ⟨400, invalidNumberBody num⟩
    else .next ⟨parseFloat num⟩
  | none => .respond ⟨400, missingNumberBody⟩

/-! ## Circuit breaker

`src/app.js` calls `circuitBreaker.execute(thunk)` and attaches a `.catch` handler to what
it returns, but the breaker itself is defined nowhere in the repository's sources. -/

/-- Modelled from the spec: configuration of the missing `circuitBreaker` object
(failure threshold and cooldown interval, section 4.2 and the design notes). -/
structure BreakerConfig where
  threshold : Nat
  cooldown : Nat

/-- Modelled from the spec: state of the missing `circuitBreaker` object.  `Closed`
carries the count of consecutive failures, `Open` the clock reading at which the breaker
opened. -/
inductive BreakerState where
  | Closed (failures : Nat)
  | Open (since : Nat)
  | HalfOpen
  deriving DecidableEq

/-- What a thunk passed to `execute` does: it sends a response and returns, or throws. -/
abbrev Thunk := Unit → Except String Response

/-- Modelled from the spec: result of `circuitBreaker.execute`: the thunk was run (and
returned or threw), or the call was rejected without running it. -/
inductive Outcome where
  | ran (r : Except String Response)
  | rejected

/-- Modelled from the spec: the recovery timer of the missing `circuitBreaker`:
`Open → HalfOpen` once the cooldown interval has elapsed since entering `Open`. -/
def CircuitBreaker.advance (cfg : BreakerConfig) (now : Nat) : BreakerState → BreakerState
  | .Open since => if since + cfg.cooldown ≤ now then .HalfOpen else .Open since
  | s => s

/-- Modelled from the spec: the missing `circuitBreaker.execute(thunk)` (section 4.2).
In `Closed` the thunk runs; success resets the failure counter, failure increments it and
opens the breaker when the threshold is reached.  In `Open` the call is rejected without
running the thunk.  In `HalfOpen` the thunk runs as a trial: success closes the breaker,
failure opens it again. -/
def CircuitBreaker.execute (cfg : BreakerConfig) (now : Nat) (s : BreakerState)
    (thunk : Thunk) : Outcome × BreakerState :=
  match CircuitBreaker.advance cfg now s with
  | .Closed failures =>
    match thunk () with
    | .ok r => (.ran (.ok r), .Closed 0)
    | .error err =>
      (.ran (.error err),
        if cfg.threshold ≤ failures + 1 then .Open now else .Closed (failures + 1))
  | .Open since => (.rejected, .Open since)
  | .HalfOpen =>
    match thunk () with
    | .ok r => (.ran (.ok r), .Closed 0)
    | .error err => (.ran (.error err), .Open now)

/-- Modelled from the spec: whether the missing `circuitBreaker` lets a call run at clock reading `now`: it does unless it is
`Open` and the cooldown has not elapsed. -/
def CircuitBreaker.allows (cfg : BreakerConfig) (now : Nat) (s : BreakerState) : Bool :=
  match CircuitBreaker.advance cfg now s with
  | .Open _ => false
  | _ => true

/-! ## Route handlers (`src/app.js` lines 83-235) -/

/-- Body sent by the `.catch` handler of every guarded route. -/
def unavailableBody : Json :=
  .obj [("error", .str "Service temporarily unavailable"), ("fallback", .str "Try again later")]

/-- The pattern `circuitBreaker.execute(thunk).catch(err => res.status(503).json(...))`:
the response is the one the thunk sent, or 503 when `execute` fails (the thunk threw,
or the call was rejected). -/
def guarded (cfg : BreakerConfig) (s : BreakerState) (clock : Clock) (thunk : Thunk) :
    Response × BreakerState :=
  match CircuitBreaker.execute cfg clock.nowMs s thunk with
  | (.ran (.ok r), s') => (r, s')
  | (.ran (.error _), s') => (⟨503, unavailableBody⟩, s')
  | (.rejected, s') => (⟨503, unavailableBody⟩, s')

/-- Success body of `/add`, `/subtract`, `/multiply`, `/divide`. -/
def binaryBody (operation : String) (num1 num2 result : JSNumber) (clock : Clock) : Json :=
  .obj [("operation", .str operation), ("num1", .num num1), ("num2", .num num2),
        ("result", .num result), ("timestamp", .str clock.iso)]

/-- Thunk of `/add`. -/
def addThunk (req : NumReq) (clock : Clock) : Thunk := fun _ =>
  let result := JSNumber.add req.num1 req.num2
  .ok ⟨200, binaryBody "addition" req.num1 req.num2 result clock⟩

/-- Thunk of `/subtract`. -/
def subtractThunk (req : NumReq) (clock : Clock) : Thunk := fun _ =>
  let result := JSNumber.sub req.num1 req.num2
  .ok ⟨200, binaryBody "subtraction" req.num1 req.num2 result clock⟩

/-- Thunk of `/multiply`. -/
def multiplyThunk (req : NumReq) (clock : Clock) : Thunk := fun _ =>
  let result := JSNumber.mul req.num1 req.num2
  .ok ⟨200, binaryBody "multiplication" req.num1 req.num2 result clock⟩

/-- Body sent by `/divide` for a zero denominator. -/
def divisionByZeroBody : Json :=
  .obj [("error", .str "Division by zero is not allowed"),
        ("suggestion", .str "Provide non-zero denominator")]

/-- Thunk of `/divide`: the zero test is made inside the thunk. -/
def divideThunk (req : NumReq) (clock : Clock) : Thunk := fun _ =>
  if JSNumber.strictEq req.num2 JSNumber.zero then
    .ok ⟨400, divisionByZeroBody⟩
  else
    let result := JSNumber.div req.num1 req.num2
    .ok ⟨200, binaryBody "division" req.num1 req.num2 result clock⟩

/-- A route `app.get(path, validateNumbers, handler)` whose handler wraps `thunk` in the
breaker. -/
def guardedRoute (thunk : NumReq → Clock → Thunk) (cfg : BreakerConfig) (s : BreakerState)
    (clock : Clock) (query : Query) : Response × BreakerState :=
  match validateNumbers query with
  | .respond r => (r, s)
  | .next req => guarded cfg s clock (thunk req clock)

/-- Route `GET /add`. -/
def addRoute := guardedRoute addThunk

/-- Route `GET /subtract`. -/
def subtractRoute := guardedRoute subtractThunk

/-- Route `GET /multiply`. -/
def multiplyRoute := guardedRoute multiplyThunk

/-- Route `GET /divide`. -/
def divideRoute := guardedRoute divideThunk

/-- Body sent by `/modulo` for a zero divisor. -/
def moduloByZeroBody : Json :=
  .obj [("error", .str "Modulo by zero is undefined"),
        ("suggestion", .str "Provide non-zero modulus")]

/-- Handler of `/modulo`. -/
def moduloHandler (req : NumReq) (clock : Clock) : Response :=
  if JSNumber.strictEq req.num2 JSNumber.zero then
    ⟨400, moduloByZeroBody⟩
  else
    let result := JSNumber.mod req.num1 req.num2
    ⟨200, .obj [("operation", .str "modulo"), ("dividend", .num req.num1),
                ("divisor", .num req.num2), ("result", .num result),
                ("timestamp", .str clock.iso)]⟩

/-- Route `GET /modulo`. -/
def moduloRoute (clock : Clock) (query : Query) : Response :=
  match validateNumbers query with
  | .respond r => r
  | .next req => moduloHandler req clock

/-- Handler of `/sqrt`. -/
def sqrtHandler (req : SingleReq) (clock : Clock) : Response :=
  if JSNumber.lt req.num JSNumber.zero then
    ⟨400, .obj [("error", .str "Square root of negative numbers is not real"),
                ("suggestion", .str "Provide non-negative number"),
                ("received", .num req.num)]⟩
  else
    let result := JSNumber.sqrt req.num
    ⟨200, .obj [("operation", .str "square_root"), ("radicand", .num req.num),
                ("result", .num result), ("timestamp", .str clock.iso)]⟩

/-- Route `GET /sqrt`. -/
def sqrtRoute (clock : Clock) (query : Query) : Response :=
  match validateSingleNumber query with
  | .respond r => r
  | .next req => sqrtHandler req clock

/-! ## Terminal error handler (`src/app.js` lines 247-260) -/

/-- A thrown error, as far as the handler reads it. -/
structure JSError where
  message : String
  stack : String

/-- The request, as far as the handler reads it. -/
structure Request where
  path : String
  query : Query

/-- The error-handling middleware `app.use((err, req, res, next) => ...)`.  `Date.now()`
is a whole number of milliseconds, printed in decimal by the template literal. -/
def errorHandler (_err : JSError) (_req : Request) (clock : Clock) : Response :=
  ⟨500, .obj [("error", .str "Internal server error"),
              ("reference", .str ("ErrorID-" ++ toString clock.nowMs)),
              ("support", .str "contact support@calculator.com")]⟩

/-! ## The service as a transition system over the breaker state -/

/-- The embedded endpoints. -/
inductive Endpoint where
  | add | subtract | multiply | divide | modulo | sqrt

/-- One request: the response and the breaker state it leaves. -/
def handle (cfg : BreakerConfig) (s : BreakerState) (clock : Clock) (ep : Endpoint)
    (query : Query) : Response × BreakerState :=
  match ep with
  | .add => addRoute cfg s clock query
  | .subtract => subtractRoute cfg s clock query
  | .multiply => multiplyRoute cfg s clock query
  | .divide => divideRoute cfg s clock query
  | .modulo => (moduloRoute clock query, s)
  | .sqrt => (sqrtRoute clock query, s)

/-- Breaker states the service can be in: it starts `Closed` with no failure, and
changes state by handling requests and by its recovery timer. -/
inductive Reachable (cfg : BreakerConfig) : BreakerState → Prop where
  | start : Reachable cfg (.Closed 0)
  | request {s : BreakerState} (clock : Clock) (ep : Endpoint) (query : Query) :
      Reachable cfg s → Reachable cfg (handle cfg s clock ep query).2
  | timer {s : BreakerState} (now : Nat) :
      Reachable cfg s → Reachable cfg (CircuitBreaker.advance cfg now s)

/-- State of the breaker after a run of executions that all throw, one per clock
reading in `times`. -/
def afterFailures (cfg : BreakerConfig) (s : BreakerState) (times : List Nat) : BreakerState :=
  times.foldl (fun st now => (CircuitBreaker.execute cfg now st (fun _ => .error "failure")).2) s

/-! # Theorems -/

set_option maxRecDepth 100000

/-! ## Lemmas on the breaker and the guarded routes -/

theorem advance_closed (cfg : BreakerConfig) (now f : Nat) :
    CircuitBreaker.advance cfg now (.Closed f) = .Closed f := rfl

theorem guarded_closed_ok (cfg : BreakerConfig) (f : Nat) (clock : Clock) (thunk : Thunk)
    (r : Response) (h : thunk () = .ok r) :
    guarded cfg (.Closed f) clock thunk = (r, .Closed 0) := by
  simp [guarded, CircuitBreaker.execute, CircuitBreaker.advance, h]

theorem divideThunk_ok (req : NumReq) (clock : Clock) :
    ∃ r, divideThunk req clock () = .ok r := by
  unfold divideThunk
  split
  · exact ⟨_, rfl⟩
  · exact ⟨_, rfl⟩

theorem guardedRoute_closed (thunk : NumReq → Clock → Thunk)
    (hok : ∀ req clock, ∃ r, thunk req clock () = .ok r)
    (cfg : BreakerConfig) (clock : Clock) (query : Query) :
    (guardedRoute thunk cfg (.Closed 0) clock query).2 = .Closed 0 := by
  unfold guardedRoute
  cases hv : validateNumbers query with
  | respond r => rfl
  | next req =>
    obtain ⟨r, hr⟩ := hok req clock
    simp [guarded_closed_ok cfg 0 clock _ r hr]

theorem handle_closed (cfg : BreakerConfig) (clock : Clock) (ep : Endpoint) (query : Query) :
    (handle cfg (.Closed 0) clock ep query).2 = .Closed 0 := by
  cases ep
  · exact guardedRoute_closed addThunk (fun _ _ => ⟨_, rfl⟩) cfg clock query
  · exact guardedRoute_closed subtractThunk (fun _ _ => ⟨_, rfl⟩) cfg clock query
  · exact guardedRoute_closed multiplyThunk (fun _ _ => ⟨_, rfl⟩) cfg clock query
  · exact guardedRoute_closed divideThunk divideThunk_ok cfg clock query
  · rfl
  · rfl

/-- In every state the service reaches, the breaker is closed with no recorded failure:
the guarded thunks never throw. -/
theorem reachable_closed (cfg : BreakerConfig) (s : BreakerState) (h : Reachable cfg s) :
    s = .Closed 0 := by
  induction h with
  | start => rfl
  | request clock ep query _ ih => rw [ih]; exact handle_closed cfg clock ep query
  | timer now _ ih => rw [ih]; rfl

theorem validateNumbers_next (query : Query) (v1 v2 : QVal)
    (h1 : query "num1" = some v1) (h2 : query "num2" = some v2)
    (hn1 : jsIsNaN v1 = false) (hn2 : jsIsNaN v2 = false) :
    validateNumbers query = .next ⟨parseFloat v1, parseFloat v2⟩ := by
  simp [validateNumbers, h1, h2, hn1, hn2]

theorem validateSingleNumber_next (query : Query) (v : QVal)
    (h : query "num" = some v) (hn : jsIsNaN v = false) :
    validateSingleNumber query = .next ⟨parseFloat v⟩ := by
  simp [validateSingleNumber, h, hn]

/-! ## Lemmas on the host conversions -/

theorem normalize_isNaN (neg : Bool) (m : Nat) (e : Int) :
    (JSNumber.normalize neg m e).isNaN = false := by
  unfold JSNumber.normalize
  split <;> rfl

theorem roundSticky_isNaN (neg : Bool) (m : Nat) (e : Int) (sticky : Bool) :
    (JSNumber.roundSticky neg m e sticky).isNaN = false := by
  unfold JSNumber.roundSticky
  simp only
  split_ifs <;> first | rfl | exact normalize_isNaN _ _ _

theorem decimalValue_isNaN (neg : Bool) (m : Nat) (e : Int) :
    (decimalValue neg m e).isNaN = false := by
  unfold decimalValue
  split
  · rfl
  · split
    · exact roundSticky_isNaN _ _ _ _
    · exact roundSticky_isNaN _ _ _ _

theorem scanUnsigned_isNaN (neg : Bool) (cs : List Char) (v : JSNumber) (rest : List Char)
    (h : scanUnsigned neg cs = some (v, rest)) : v.isNaN = false := by
  unfold scanUnsigned at h
  split at h
  · cases h; rfl
  · simp only at h
    split at h
    · split at h
      · cases h
      · cases h; exact decimalValue_isNaN _ _ _
    · split at h
      · cases h
      · cases h; exact decimalValue_isNaN _ _ _

theorem scanDecimal_isNaN (cs : List Char) (v : JSNumber) (rest : List Char)
    (h : scanDecimal cs = some (v, rest)) : v.isNaN = false := by
  unfold scanDecimal at h
  split at h
  · exact scanUnsigned_isNaN _ _ _ _ h
  · exact scanUnsigned_isNaN _ _ _ _ h
  · exact scanUnsigned_isNaN _ _ _ _ h

theorem scanUnsigned_zero_digit (neg : Bool) (rest : List Char) :
    (scanUnsigned neg ('0' :: rest)).isSome = true := by
  unfold scanUnsigned
  have hp : "Infinity".toList.isPrefixOf ('0' :: rest) = false := by
    simp [List.isPrefixOf]
  have hd : isDigit '0' = true := by decide
  simp only [hp, List.span_eq_take_drop, List.takeWhile_cons, List.dropWhile_cons, hd]
  simp only [Bool.false_eq_true, if_false, if_true, List.isEmpty_cons, Bool.false_and]
  split <;> rfl

theorem scanDecimal_zero_digit (rest : List Char) :
    (scanDecimal ('0' :: rest)).isSome = true := by
  unfold scanDecimal
  exact scanUnsigned_zero_digit false rest

theorem scanNonDecimal_isNaN_of_scanDecimal_none (cs : List Char)
    (h : scanDecimal cs = none) : (scanNonDecimal cs).isNaN = true := by
  unfold scanNonDecimal
  split
  · rename_i c rest
    have := scanDecimal_zero_digit (c :: rest)
    rw [h] at this
    cases this
  · rfl

theorem dropWhile_ne_nil_of_all_false (p : Char → Bool) (l : List Char)
    (h : l.all p = false) : (l.dropWhile p).isEmpty = false := by
  induction l with
  | nil => simp at h
  | cons c cs ih =>
    rw [List.dropWhile_cons]
    by_cases hc : p c = true
    · simp only [hc, if_true]
      apply ih
      simpa [List.all_cons, hc] using h
    · simp [hc]

/-- A value that `isNaN` lets through and whose text is not blank is parsed by
`parseFloat` to a number that is not NaN. -/
theorem parseFloatString_isNaN (s : String) (hn : (stringToNumber s).isNaN = false)
    (hb : isBlank s = false) : (parseFloatString s).isNaN = false := by
  unfold parseFloatString
  unfold stringToNumber at hn
  have ht := dropWhile_ne_nil_of_all_false isWhiteSpace s.toList hb
  simp only [ht, Bool.false_eq_true, if_false] at hn
  cases hd : scanDecimal (s.toList.dropWhile isWhiteSpace) with
  | none =>
    rw [hd] at hn
    simp only at hn
    rw [scanNonDecimal_isNaN_of_scanDecimal_none _ hd] at hn
    cases hn
  | some p =>
    obtain ⟨v, rest⟩ := p
    exact scanDecimal_isNaN _ _ _ hd

theorem parseFloat_isNaN (v : QVal) (hn : jsIsNaN v = false)
    (hb : isBlank v.toStringJS = false) : (parseFloat v).isNaN = false :=
  parseFloatString_isNaN _ hn hb

theorem signed_zero (neg : Bool) : JSNumber.signed neg 0 = 0 := by
  cases neg <;> rfl

theorem lt_zero_of_not_neg (m : Nat) (e : Int) :
    JSNumber.lt (.fin false m e) JSNumber.zero = false := by
  simp [JSNumber.lt, JSNumber.zero, JSNumber.signed]

theorem normalize_lt_zero (m : Nat) (e : Int) :
    JSNumber.lt (JSNumber.normalize false m e) JSNumber.zero = false := by
  unfold JSNumber.normalize
  split <;> exact lt_zero_of_not_neg _ _

theorem roundSticky_lt_zero (m : Nat) (e : Int) (sticky : Bool) :
    JSNumber.lt (JSNumber.roundSticky false m e sticky) JSNumber.zero = false := by
  unfold JSNumber.roundSticky
  simp only
  split_ifs <;> first | rfl | exact normalize_lt_zero _ _

/-- `Math.sqrt` never returns a negative number. -/
theorem sqrt_not_lt_zero (a : JSNumber) : JSNumber.lt (JSNumber.sqrt a) JSNumber.zero = false := by
  cases a with
  | nan => rfl
  | inf s => cases s <;> rfl
  | fin s m e =>
    simp only [JSNumber.sqrt]
    split_ifs <;>
      first
      | rfl
      | exact roundSticky_lt_zero _ _ _
      | simp [JSNumber.lt, JSNumber.zero, signed_zero]

/-- A number that is not NaN is either `< 0` or `>= 0`, never both. -/
theorem lt_zero_xor_ge_zero (a : JSNumber) (h : a.isNaN = false) :
    JSNumber.ge a JSNumber.zero = !JSNumber.lt a JSNumber.zero := by
  cases a with
  | nan => cases h
  | inf s => cases s <;> rfl
  | fin s m e =>
    have hc : min e 0 = min 0 e := min_comm e 0
    cases s
    · simp only [JSNumber.ge, JSNumber.lt, JSNumber.strictEq, JSNumber.zero, JSNumber.signed, hc]
      generalize m <<< (e - min 0 e).toNat = k
      rcases Nat.eq_zero_or_pos k with hk | hk
      · subst hk; simp
      · have hk' : k ≠ 0 := by omega
        simp [hk, hk']
    · simp only [JSNumber.ge, JSNumber.lt, JSNumber.strictEq, JSNumber.zero, JSNumber.signed, hc]
      generalize m <<< (e - min 0 e).toNat = k
      rcases Nat.eq_zero_or_pos k with hk | hk
      · subst hk; simp
      · have hk' : k ≠ 0 := by omega
        simp [hk, hk']

theorem execute_closed_error (cfg : BreakerConfig) (now f : Nat) (msg : String) :
    (CircuitBreaker.execute cfg now (.Closed f) (fun _ => .error msg)).2 =
      if cfg.threshold ≤ f + 1 then .Open now else .Closed (f + 1) := rfl

/-- A run of failing executions that brings the failure count from `f` to the threshold
leaves the breaker `Open`, opened at the last clock reading of the run. -/
theorem afterFailures_open (cfg : BreakerConfig) (times : List Nat) :
    ∀ f, times ≠ [] → f + times.length = cfg.threshold →
      ∃ since, times.getLast? = some since ∧
        afterFailures cfg (.Closed f) times = .Open since := by
  induction times with
  | nil => intro f h; exact absurd rfl h
  | cons t rest ih =>
    intro f _ hlen
    cases rest with
    | nil =>
      refine ⟨t, rfl, ?_⟩
      simp only [List.length_cons, List.length_nil] at hlen
      simp only [afterFailures, List.foldl_cons, List.foldl_nil, execute_closed_error]
      rw [if_pos (by omega)]
    | cons u rest' =>
      simp only [List.length_cons] at hlen
      obtain ⟨since, hlast, hrun⟩ := ih (f + 1) (by simp) (by simp only [List.length_cons]; omega)
      refine ⟨since, ?_, ?_⟩
      · rw [List.getLast?_cons_cons]; exact hlast
      · simp only [afterFailures, List.foldl_cons, execute_closed_error] at hrun ⊢
        rw [if_neg (by omega)]
        exact hrun

theorem execute_open_rejects (cfg : BreakerConfig) (now since : Nat) (thunk : Thunk)
    (h : now < since + cfg.cooldown) :
    CircuitBreaker.execute cfg now (.Open since) thunk = (.rejected, .Open since) := by
  simp only [CircuitBreaker.execute, CircuitBreaker.advance]
  rw [if_neg (by omega)]

theorem execute_open_trial (cfg : BreakerConfig) (now since : Nat) (thunk : Thunk)
    (h : since + cfg.cooldown ≤ now) :
    CircuitBreaker.execute cfg now (.Open since) thunk =
      (.ran (thunk ()),
        match thunk () with
        | .ok _ => .Closed 0
        | .error _ => .Open now) := by
  simp only [CircuitBreaker.execute, CircuitBreaker.advance]
  rw [if_pos h]
  cases thunk () <;> rfl

theorem guardedRoute_open_rejects (thunk : NumReq → Clock → Thunk) (cfg : BreakerConfig)
    (since : Nat) (clock : Clock) (query : Query) (req : NumReq)
    (hv : validateNumbers query = .next req) (h : clock.nowMs < since + cfg.cooldown) :
    guardedRoute thunk cfg (.Open since) clock query =
      (⟨503, unavailableBody⟩, .Open since) := by
  simp only [guardedRoute, hv, guarded, execute_open_rejects cfg _ since _ h]

/-! ## Claims -/

/-- C1: when `num1` or `num2` is undefined, `validateNumbers` answers 400 with the body
`{error: 'Both num1 and num2 are required', suggestion: 'Example: /add?num1=5&num2=3'}`
and does not call `next`, whatever the other parameter is; when `num` is undefined,
`validateSingleNumber` answers 400 with `{error: 'num parameter is required',
example: '/sqrt?num=25'}` and does not call `next`.  Neither body has a `result` field. -/
theorem C1_missing_parameter (query : Query) :
    ((query "num1" = none ∨ query "num2" = none) →
      validateNumbers query = .respond ⟨400,
        .obj [("error", .str "Both num1 and num2 are required"),
              ("suggestion", .str "Example: /add?num1=5&num2=3")]⟩) ∧
    (query "num" = none →
      validateSingleNumber query = .respond ⟨400,
        .obj [("error", .str "num parameter is required"),
              ("example", .str "/sqrt?num=25")]⟩) ∧
    Json.hasField "result" missingNumbersBody = false ∧
    Json.hasField "result" missingNumberBody = false := by
  refine ⟨?_, ?_, rfl, rfl⟩
  · intro h
    unfold validateNumbers
    rcases h with h | h
    · rw [h]; rfl
    · rw [h]
      cases query "num1" <;> rfl
  · intro h
    unfold validateSingleNumber
    rw [h]; rfl

/-- Witness for C1: a request with only `num1=5`, and no `num`. -/
theorem C1_missing_parameter_witness :
    validateNumbers (Query.ofList [("num1", .str "5")]) = .respond ⟨400,
        .obj [("error", .str "Both num1 and num2 are required"),
              ("suggestion", .str "Example: /add?num1=5&num2=3")]⟩ ∧
    validateSingleNumber (Query.ofList [("num1", .str "5")]) = .respond ⟨400,
        .obj [("error", .str "num parameter is required"),
              ("example", .str "/sqrt?num=25")]⟩ :=
  ⟨(C1_missing_parameter (Query.ofList [("num1", .str "5")])).1 (Or.inr rfl),
   (C1_missing_parameter (Query.ofList [("num1", .str "5")])).2.1 rfl⟩

/-- C2: evaluation at the empty string.  `isNaN("")` is false, so both validators call
`next` and attach `parseFloat("") = NaN`; `/sqrt?num=` then answers 200.  The texts
`"abc"` and `"NaN"` are answered with 400 and echoed in `received`. -/
theorem C2_empty_string_passes :
    jsIsNaN (.str "") = false ∧
    validateSingleNumber (Query.ofList [("num", .str "")]) = .next ⟨.nan⟩ ∧
    validateNumbers (Query.ofList [("num1", .str ""), ("num2", .str "3")]) =
      .next ⟨.nan, .fin false 3 0⟩ ∧
    (sqrtRoute ⟨0, "t"⟩ (Query.ofList [("num", .str "")])).status = 200 ∧
    validateSingleNumber (Query.ofList [("num", .str "abc")]) =
      .respond ⟨400, .obj [("error", .str "num must be a valid number"),
                           ("received", .raw (.str "abc"))]⟩ ∧
    validateSingleNumber (Query.ofList [("num", .str "NaN")]) =
      .respond ⟨400, .obj [("error", .str "num must be a valid number"),
                           ("received", .raw (.str "NaN"))]⟩ :=
  ⟨rfl, rfl, rfl, rfl, rfl, rfl⟩

/-- C3, as stated, fails: `?num=Infinity` passes `validateSingleNumber` and the operand
attached is `+Infinity`, which is not finite (and likewise for `validateNumbers`). -/
theorem C3_counterexample :
    validateSingleNumber (Query.ofList [("num", .str "Infinity")]) = .next ⟨.inf false⟩ ∧
    (JSNumber.inf false).isFinite = false ∧
    validateNumbers (Query.ofList [("num1", .str "Infinity"), ("num2", .str "3")]) =
      .next ⟨.inf false, .fin false 3 0⟩ :=
  ⟨rfl, rfl, rfl⟩

/-- C3, amended: when a validator calls `next` on parameters whose text is not blank,
every operand it attaches is a number other than NaN (it may be an infinity). -/
theorem C3_operands_not_nan (query : Query) :
    (∀ v1 v2 req, query "num1" = some v1 → query "num2" = some v2 →
      isBlank v1.toStringJS = false → isBlank v2.toStringJS = false →
      validateNumbers query = .next req →
      req.num1.isNaN = false ∧ req.num2.isNaN = false) ∧
    (∀ v req, query "num" = some v → isBlank v.toStringJS = false →
      validateSingleNumber query = .next req → req.num.isNaN = false) := by
  constructor
  · intro v1 v2 req h1 h2 hb1 hb2 hv
    simp only [validateNumbers, h1, h2] at hv
    split at hv
    · cases hv
    · rename_i hn
      simp only [Bool.or_eq_true, not_or, Bool.not_eq_true] at hn
      cases hv
      exact ⟨parseFloat_isNaN v1 hn.1 hb1, parseFloat_isNaN v2 hn.2 hb2⟩
  · intro v req h hb hv
    simp only [validateSingleNumber, h] at hv
    split at hv
    · cases hv
    · rename_i hn
      simp only [Bool.not_eq_true] at hn
      cases hv
      exact parseFloat_isNaN v hn hb

/-- Witness for the amended C3: `?num1=-2.5&num2=1e3` and `?num=Infinity`. -/
theorem C3_operands_not_nan_witness :
    (JSNumber.fin true 5 (-1)).isNaN = false ∧ (JSNumber.fin false 125 3).isNaN = false ∧
    (JSNumber.inf false).isNaN = false :=
  ⟨((C3_operands_not_nan (Query.ofList [("num1", .str "-2.5"), ("num2", .str "1e3")])).1
      (.str "-2.5") (.str "1e3") ⟨.fin true 5 (-1), .fin false 125 3⟩ rfl rfl rfl rfl (by rfl)).1,
   ((C3_operands_not_nan (Query.ofList [("num1", .str "-2.5"), ("num2", .str "1e3")])).1
      (.str "-2.5") (.str "1e3") ⟨.fin true 5 (-1), .fin false 125 3⟩ rfl rfl rfl rfl (by rfl)).2,
   (C3_operands_not_nan (Query.ofList [("num", .str "Infinity")])).2
      (.str "Infinity") ⟨.inf false⟩ rfl rfl (by rfl)⟩

/-- C4: evaluation at `"0x10"`.  The predicate accepts the text as the number 16
(`Number("0x10")`), but the operand attached is `parseFloat("0x10") = 0`, so
`/add?num1=0x10&num2=1` answers with `num1: 0` and `result: 1`. -/
theorem C4_hex_text_parsed_as_zero :
    jsIsNaN (.str "0x10") = false ∧
    stringToNumber "0x10" = JSNumber.ofNat 16 ∧
    parseFloat (.str "0x10") = JSNumber.ofNat 0 ∧
    validateNumbers (Query.ofList [("num1", .str "0x10"), ("num2", .str "1")]) =
      .next ⟨JSNumber.ofNat 0, JSNumber.ofNat 1⟩ ∧
    (addRoute ⟨5, 30000⟩ (.Closed 0) ⟨0, "t"⟩
      (Query.ofList [("num1", .str "0x10"), ("num2", .str "1")])).1 =
      ⟨200, .obj [("operation", .str "addition"), ("num1", .num (JSNumber.ofNat 0)),
                  ("num2", .num (JSNumber.ofNat 1)), ("result", .num (JSNumber.ofNat 1)),
                  ("timestamp", .str "t")]⟩ ∧
    stringToNumber "" = JSNumber.ofNat 0 ∧ parseFloat (.str "") = .nan :=
  ⟨rfl, rfl, rfl, rfl, rfl, rfl, rfl⟩

/-- C5: for parameters `num1`, `num2` that pass the numeric predicate, in every state the
service reaches, `/add` answers 200 with `{operation: 'addition', num1: a, num2: b,
result: a + b, timestamp}`, `/subtract` answers 200 with result `a - b` and `/multiply`
answers 200 with result `a * b`, where `a`, `b` are the parsed operands. -/
theorem C5_add_subtract_multiply (cfg : BreakerConfig) (s : BreakerState) (clock : Clock)
    (query : Query) (v1 v2 : QVal) (hs : Reachable cfg s)
    (h1 : query "num1" = some v1) (h2 : query "num2" = some v2)
    (hn1 : jsIsNaN v1 = false) (hn2 : jsIsNaN v2 = false) :
    (addRoute cfg s clock query).1 =
      ⟨200, .obj [("operation", .str "addition"), ("num1", .num (parseFloat v1)),
                  ("num2", .num (parseFloat v2)),
                  ("result", .num (JSNumber.add (parseFloat v1) (parseFloat v2))),
                  ("timestamp", .str clock.iso)]⟩ ∧
    (subtractRoute cfg s clock query).1 =
      ⟨200, .obj [("operation", .str "subtraction"), ("num1", .num (parseFloat v1)),
                  ("num2", .num (parseFloat v2)),
                  ("result", .num (JSNumber.sub (parseFloat v1) (parseFloat v2))),
                  ("timestamp", .str clock.iso)]⟩ ∧
    (multiplyRoute cfg s clock query).1 =
      ⟨200, .obj [("operation", .str "multiplication"), ("num1", .num (parseFloat v1)),
                  ("num2", .num (parseFloat v2)),
                  ("result", .num (JSNumber.mul (parseFloat v1) (parseFloat v2))),
                  ("timestamp", .str clock.iso)]⟩ := by
  have hv := validateNumbers_next query v1 v2 h1 h2 hn1 hn2
  rw [reachable_closed cfg s hs]
  refine ⟨?_, ?_, ?_⟩
  · simp only [addRoute, guardedRoute, hv]
    rw [guarded_closed_ok cfg 0 clock _ _ rfl]
    rfl
  · simp only [subtractRoute, guardedRoute, hv]
    rw [guarded_closed_ok cfg 0 clock _ _ rfl]
    rfl
  · simp only [multiplyRoute, guardedRoute, hv]
    rw [guarded_closed_ok cfg 0 clock _ _ rfl]
    rfl

/-- Witness for C5: `GET /add?num1=5&num2=3` on a freshly started service answers 200
with `num1: 5`, `num2: 3`, `result: 8`. -/
theorem C5_add_subtract_multiply_witness :
    (addRoute ⟨5, 30000⟩ (.Closed 0) ⟨0, "2025-01-01T00:00:00.000Z"⟩
      (Query.ofList [("num1", .str "5"), ("num2", .str "3")])).1 =
      ⟨200, .obj [("operation", .str "addition"), ("num1", .num (.fin false 5 0)),
                  ("num2", .num (.fin false 3 0)), ("result", .num (.fin false 1 3)),
                  ("timestamp", .str "2025-01-01T00:00:00.000Z")]⟩ :=
  (C5_add_subtract_multiply ⟨5, 30000⟩ (.Closed 0) ⟨0, "2025-01-01T00:00:00.000Z"⟩
    (Query.ofList [("num1", .str "5"), ("num2", .str "3")]) (.str "5") (.str "3")
    Reachable.start rfl rfl rfl rfl).1

/-- C6, as stated, fails: with the breaker `Open` and its cooldown running,
`GET /divide?num1=10&num2=0` passes validation with a zero second operand and is
answered 503, not 400: the zero test sits inside the thunk, which is not run. -/
theorem C6_counterexample :
    validateNumbers (Query.ofList [("num1", .str "10"), ("num2", .str "0")]) =
      .next ⟨.fin false 5 1, .fin false 0 0⟩ ∧
    JSNumber.strictEq (.fin false 0 0) JSNumber.zero = true ∧
    divideRoute ⟨5, 30000⟩ (.Open 1000) ⟨2000, "t"⟩
      (Query.ofList [("num1", .str "10"), ("num2", .str "0")]) =
      (⟨503, .obj [("error", .str "Service temporarily unavailable"),
                   ("fallback", .str "Try again later")]⟩, .Open 1000) :=
  ⟨by rfl, by rfl, by rfl⟩

/-- C6, amended: for a request to `/divide` that passes validation with a second operand
equal to zero, whenever the breaker allows the call the answer is 400 with
`{error: 'Division by zero is not allowed', suggestion: 'Provide non-zero denominator'}`
(no `result` field), and the execution counts as a success; when the breaker is `Open`
and its cooldown has not elapsed, the answer is 503 and the state is unchanged. -/
theorem C6_divide_by_zero (cfg : BreakerConfig) (s : BreakerState) (clock : Clock)
    (query : Query) (req : NumReq) (hv : validateNumbers query = .next req)
    (hz : JSNumber.strictEq req.num2 JSNumber.zero = true) :
    (CircuitBreaker.allows cfg clock.nowMs s = true →
      divideRoute cfg s clock query =
        (⟨400, .obj [("error", .str "Division by zero is not allowed"),
                     ("suggestion", .str "Provide non-zero denominator")]⟩, .Closed 0)) ∧
    (CircuitBreaker.allows cfg clock.nowMs s = false →
      divideRoute cfg s clock query =
        (⟨503, .obj [("error", .str "Service temporarily unavailable"),
                     ("fallback", .str "Try again later")]⟩, s)) ∧
    Json.hasField "result" divisionByZeroBody = false := by
  have ht : divideThunk req clock () = .ok ⟨400, divisionByZeroBody⟩ := by
    simp [divideThunk, hz]
  refine ⟨?_, ?_, rfl⟩
  · intro ha
    simp only [divideRoute, guardedRoute, hv, guarded, CircuitBreaker.execute]
    unfold CircuitBreaker.allows at ha
    cases hadv : CircuitBreaker.advance cfg clock.nowMs s with
    | Closed f => simp only [ht]; rfl
    | Open since => rw [hadv] at ha; cases ha
    | HalfOpen => simp only [ht]; rfl
  · intro ha
    simp only [divideRoute, guardedRoute, hv, guarded, CircuitBreaker.execute]
    unfold CircuitBreaker.allows at ha
    cases s with
    | Closed f => cases ha
    | HalfOpen => cases ha
    | Open since =>
      simp only [CircuitBreaker.advance] at ha ⊢
      split_ifs at ha ⊢
      all_goals rfl

/-- Witness for the amended C6: `GET /divide?num1=10&num2=0` with the breaker closed. -/
theorem C6_divide_by_zero_witness :
    divideRoute ⟨5, 30000⟩ (.Closed 0) ⟨0, "t"⟩
      (Query.ofList [("num1", .str "10"), ("num2", .str "0")]) =
      (⟨400, .obj [("error", .str "Division by zero is not allowed"),
                   ("suggestion", .str "Provide non-zero denominator")]⟩, .Closed 0) :=
  (C6_divide_by_zero ⟨5, 30000⟩ (.Closed 0) ⟨0, "t"⟩
    (Query.ofList [("num1", .str "10"), ("num2", .str "0")])
    ⟨.fin false 5 1, .fin false 0 0⟩ (by rfl) (by rfl)).1 (by rfl)

/-- C7: for a request to `/modulo` that passes validation, a divisor equal to zero is
answered 400 with `{error: 'Modulo by zero is undefined', suggestion: 'Provide non-zero
modulus'}` (no `result` field); any other divisor is answered 200 with
`{operation: 'modulo', dividend: num1, divisor: num2, result: num1 % num2, timestamp}`;
the status is 400 exactly when the divisor is zero. -/
theorem C7_modulo (clock : Clock) (query : Query) (req : NumReq)
    (hv : validateNumbers query = .next req) :
    (JSNumber.strictEq req.num2 JSNumber.zero = true →
      moduloRoute clock query =
        ⟨400, .obj [("error", .str "Modulo by zero is undefined"),
                    ("suggestion", .str "Provide non-zero modulus")]⟩) ∧
    (JSNumber.strictEq req.num2 JSNumber.zero = false →
      moduloRoute clock query =
        ⟨200, .obj [("operation", .str "modulo"), ("dividend", .num req.num1),
                    ("divisor", .num req.num2),
                    ("result", .num (JSNumber.mod req.num1 req.num2)),
                    ("timestamp", .str clock.iso)]⟩) ∧
    ((moduloRoute clock query).status = 400 ↔
      JSNumber.strictEq req.num2 JSNumber.zero = true) ∧
    Json.hasField "result" moduloByZeroBody = false := by
  refine ⟨?_, ?_, ?_, rfl⟩
  · intro hz
    simp [moduloRoute, hv, moduloHandler, hz, moduloByZeroBody]
  · intro hz
    simp [moduloRoute, hv, moduloHandler, hz]
  · simp only [moduloRoute, hv, moduloHandler]
    cases hz : JSNumber.strictEq req.num2 JSNumber.zero <;> simp

/-- Witness for C7: `GET /modulo?num1=10&num2=3` answers 200 with result 1. -/
theorem C7_modulo_witness :
    moduloRoute ⟨0, "t"⟩ (Query.ofList [("num1", .str "10"), ("num2", .str "3")]) =
      ⟨200, .obj [("operation", .str "modulo"), ("dividend", .num (.fin false 5 1)),
                  ("divisor", .num (.fin false 3 0)), ("result", .num (.fin false 1 0)),
                  ("timestamp", .str "t")]⟩ :=
  (C7_modulo ⟨0, "t"⟩ (Query.ofList [("num1", .str "10"), ("num2", .str "3")])
    ⟨.fin false 5 1, .fin false 3 0⟩ (by rfl)).2.1 (by rfl)

/-- C8: for a parameter `num` that passes the numeric predicate and is not blank, with
`a` the parsed operand: if `a < 0`, `/sqrt` answers 400 with `{error: 'Square root of
negative numbers is not real', suggestion: 'Provide non-negative number', received: a}`
(no `result` field); if `a >= 0`, it answers 200 with `{operation: 'square_root',
radicand: a, result: Math.sqrt(a), timestamp}`, and the result is not negative; exactly
one of `a < 0`, `a >= 0` holds. -/
theorem C8_sqrt (clock : Clock) (query : Query) (v : QVal)
    (h : query "num" = some v) (hn : jsIsNaN v = false)
    (hb : isBlank v.toStringJS = false) :
    (JSNumber.lt (parseFloat v) JSNumber.zero = true →
      sqrtRoute clock query =
        ⟨400, .obj [("error", .str "Square root of negative numbers is not real"),
                    ("suggestion", .str "Provide non-negative number"),
                    ("received", .num (parseFloat v))]⟩ ∧
      Json.hasField "result" (sqrtRoute clock query).body = false) ∧
    (JSNumber.ge (parseFloat v) JSNumber.zero = true →
      sqrtRoute clock query =
        ⟨200, .obj [("operation", .str "square_root"), ("radicand", .num (parseFloat v)),
                    ("result", .num (JSNumber.sqrt (parseFloat v))),
                    ("timestamp", .str clock.iso)]⟩ ∧
      JSNumber.lt (JSNumber.sqrt (parseFloat v)) JSNumber.zero = false) ∧
    (JSNumber.ge (parseFloat v) JSNumber.zero = !JSNumber.lt (parseFloat v) JSNumber.zero) := by
  have hv := validateSingleNumber_next query v h hn
  have hx := lt_zero_xor_ge_zero (parseFloat v) (parseFloat_isNaN v hn hb)
  refine ⟨?_, ?_, hx⟩
  · intro hlt
    have hr : sqrtRoute clock query =
        ⟨400, .obj [("error", .str "Square root of negative numbers is not real"),
                    ("suggestion", .str "Provide non-negative number"),
                    ("received", .num (parseFloat v))]⟩ := by
      simp [sqrtRoute, hv, sqrtHandler, hlt]
    exact ⟨hr, by rw [hr]; rfl⟩
  · intro hge
    rw [hx] at hge
    have hlt : JSNumber.lt (parseFloat v) JSNumber.zero = false := by
      cases hc : JSNumber.lt (parseFloat v) JSNumber.zero
      · rfl
      · rw [hc] at hge; cases hge
    refine ⟨?_, sqrt_not_lt_zero _⟩
    simp [sqrtRoute, hv, sqrtHandler, hlt]

/-- Witness for C8: `GET /sqrt?num=25` answers 200 with result 5, and
`GET /sqrt?num=-4` answers 400 echoing -4. -/
theorem C8_sqrt_witness :
    sqrtRoute ⟨0, "t"⟩ (Query.ofList [("num", .str "25")]) =
      ⟨200, .obj [("operation", .str "square_root"), ("radicand", .num (.fin false 25 0)),
                  ("result", .num (.fin false 5 0)), ("timestamp", .str "t")]⟩ ∧
    sqrtRoute ⟨0, "t"⟩ (Query.ofList [("num", .str "-4")]) =
      ⟨400, .obj [("error", .str "Square root of negative numbers is not real"),
                  ("suggestion", .str "Provide non-negative number"),
                  ("received", .num (.fin true 1 2))]⟩ :=
  ⟨((C8_sqrt ⟨0, "t"⟩ (Query.ofList [("num", .str "25")]) (.str "25")
      rfl (by rfl) (by rfl)).2.1 (by rfl)).1,
   ((C8_sqrt ⟨0, "t"⟩ (Query.ofList [("num", .str "-4")]) (.str "-4")
      rfl (by rfl) (by rfl)).1 (by rfl)).1⟩

/-- C9 (on the breaker as the spec describes it): starting `Closed` with no failure,
after as many consecutive failed executions as the threshold the breaker is `Open`.
From then on, while the cooldown has not elapsed, `execute` rejects every call without
running its thunk and leaves the state unchanged, and every guarded route answers a
validated request with 503 `{error: 'Service temporarily unavailable', fallback: 'Try
again later'}`.  Once the cooldown has elapsed the next call runs its thunk as a trial:
if it succeeds the breaker closes; if it fails the breaker is `Open` again and rejects
calls until a new cooldown has elapsed. -/
theorem C9_breaker_opens (cfg : BreakerConfig) (times : List Nat)
    (hN : 0 < cfg.threshold) (hlen : times.length = cfg.threshold) :
    ∃ since, times.getLast? = some since ∧
      afterFailures cfg (.Closed 0) times = .Open since ∧
      (∀ now thunk, now < since + cfg.cooldown →
        CircuitBreaker.execute cfg now (.Open since) thunk = (.rejected, .Open since)) ∧
      (∀ clock query req, clock.nowMs < since + cfg.cooldown →
        validateNumbers query = .next req →
        ∀ route ∈ [addRoute, subtractRoute, multiplyRoute, divideRoute],
          route cfg (.Open since) clock query =
            (⟨503, .obj [("error", .str "Service temporarily unavailable"),
                         ("fallback", .str "Try again later")]⟩, .Open since)) ∧
      (∀ now thunk, since + cfg.cooldown ≤ now →
        (CircuitBreaker.execute cfg now (.Open since) thunk).1 = .ran (thunk ()) ∧
        (∀ r, thunk () = .ok r →
          (CircuitBreaker.execute cfg now (.Open since) thunk).2 = .Closed 0) ∧
        (∀ err, thunk () = .error err →
          (CircuitBreaker.execute cfg now (.Open since) thunk).2 = .Open now ∧
          ∀ now' thunk', now' < now + cfg.cooldown →
            CircuitBreaker.execute cfg now' (.Open now) thunk' =
              (.rejected, .Open now))) := by
  have hne : times ≠ [] := by
    intro h
    rw [h] at hlen
    simp at hlen
    omega
  obtain ⟨since, hlast, hrun⟩ := afterFailures_open cfg times 0 hne (by omega)
  refine ⟨since, hlast, hrun, ?_, ?_, ?_⟩
  · intro now thunk h
    exact execute_open_rejects cfg now since thunk h
  · intro clock query req h hv route hr
    simp only [List.mem_cons, List.mem_singleton, List.not_mem_nil, or_false] at hr
    rcases hr with rfl | rfl | rfl | rfl
    · exact guardedRoute_open_rejects addThunk cfg since clock query req hv h
    · exact guardedRoute_open_rejects subtractThunk cfg since clock query req hv h
    · exact guardedRoute_open_rejects multiplyThunk cfg since clock query req hv h
    · exact guardedRoute_open_rejects divideThunk cfg since clock query req hv h
  · intro now thunk h
    rw [execute_open_trial cfg now since thunk h]
    refine ⟨rfl, ?_, ?_⟩
    · intro r hr
      simp only [hr]
    · intro err he
      simp only [he]
      exact ⟨trivial, fun now' thunk' h' => execute_open_rejects cfg now' now thunk' h'⟩

/-- Witness for C9: threshold 3, cooldown 1000 ms, failures at 10, 20 and 30 ms: the
breaker is `Open` since 30, and `GET /add?num1=5&num2=3` at 500 ms is answered 503. -/
theorem C9_breaker_opens_witness :
    afterFailures ⟨3, 1000⟩ (.Closed 0) [10, 20, 30] = .Open 30 ∧
    addRoute ⟨3, 1000⟩ (.Open 30) ⟨500, "t"⟩
        (Query.ofList [("num1", .str "5"), ("num2", .str "3")]) =
      (⟨503, .obj [("error", .str "Service temporarily unavailable"),
                   ("fallback", .str "Try again later")]⟩, .Open 30) := by
  obtain ⟨since, hlast, hrun, _, hroutes, _⟩ :=
    C9_breaker_opens ⟨3, 1000⟩ [10, 20, 30] (by decide) rfl
  have hs : since = 30 := by
    have : some 30 = some since := hlast
    injection this with h
    exact h.symm
  subst hs
  exact ⟨hrun, hroutes ⟨500, "t"⟩ (Query.ofList [("num1", .str "5"), ("num2", .str "3")])
    ⟨.fin false 5 0, .fin false 3 0⟩ (by decide) (by rfl) addRoute (by simp)⟩

/-- C10: the terminal error handler answers 500 with exactly the fields
`error: 'Internal server error'`, `reference: 'ErrorID-' + Date.now()` and
`support: 'contact support@calculator.com'`; for any two errors and any two requests
handled at the same clock value, the status and body are identical. -/
theorem C10_error_handler (err1 err2 : JSError) (req1 req2 : Request) (clock1 clock2 : Clock)
    (h : clock1.nowMs = clock2.nowMs) :
    errorHandler err1 req1 clock1 =
      ⟨500, .obj [("error", .str "Internal server error"),
                  ("reference", .str ("ErrorID-" ++ toString clock1.nowMs)),
                  ("support", .str "contact support@calculator.com")]⟩ ∧
    (errorHandler err1 req1 clock1).body.fieldNames = ["error", "reference", "support"] ∧
    errorHandler err1 req1 clock1 = errorHandler err2 req2 clock2 := by
  refine ⟨rfl, rfl, ?_⟩
  simp only [errorHandler, h]

/-- Witness for C10: two different errors on two different requests at clock value
1700000000000. -/
theorem C10_error_handler_witness :
    errorHandler ⟨"boom", "at app.js:1"⟩ ⟨"/add", Query.ofList [("num1", .str "5")]⟩
        ⟨1700000000000, "a"⟩ =
      errorHandler ⟨"secret", "at db.js:9"⟩ ⟨"/sqrt", Query.ofList []⟩
        ⟨1700000000000, "b"⟩ :=
  (C10_error_handler ⟨"boom", "at app.js:1"⟩ ⟨"secret", "at db.js:9"⟩
    ⟨"/add", Query.ofList [("num1", .str "5")]⟩ ⟨"/sqrt", Query.ofList []⟩
    ⟨1700000000000, "a"⟩ ⟨1700000000000, "b"⟩ rfl).2.2

end Calc
